import Mathlib

/-!
Shallow embedding of `src/EcoStopBrakeStarter.c` (an ATTiny13A idle-stop
bypass controller) and proofs of the specification's claims about it.

Modelling conventions:
* `PINB` values are natural numbers; each read of `PINB` in the C source is
  a separate input to the model (the source re-reads the port at several
  places inside one loop iteration).
* `PORTB` is a natural number; the C bit operations `|`, `&`, `~` on the
  8-bit register are modelled with `|||`, `&&&` and xor against `255`.
* The blocking delays only advance time; time is the `cranking_time`
  counter of the C source (milliseconds).
* The C `for` loop in `cranking` adds `POLLING_INTERVAL` to `cranking_time`
  every iteration and exits once `cranking_time < CRANKING_MAX_TIME` fails,
  so it runs at most `CRANKING_MAX_TIME / POLLING_INTERVAL` iterations.
  `crankLoop` carries that iteration count as structural fuel while keeping
  the source's guard verbatim; from the initial call the fuel runs out
  exactly when the guard turns false, so the fuel branch never changes the
  result.
-/

/-- POLLING_INTERVAL: polling cadence in milliseconds. -/
def POLLING_INTERVAL : Nat := 100

/-- CRANKING_MAX_TIME: maximum engine-start wait in milliseconds. -/
def CRANKING_MAX_TIME : Nat := 4000

/-- START_CHECK_DELAY_TIME: delay before the start check begins, ms. -/
def START_CHECK_DELAY_TIME : Nat := 500

/-- START_THRESHOLD_TIME: required continuous L-terminal detection, ms. -/
def START_THRESHOLD_TIME : Nat := 500

/-- IN_DISABLE: `_BV(PINB0)`, idle-stop enable/disable input bit. -/
def IN_DISABLE : Nat := 1

/-- IN_N: `_BV(PINB1)`, neutral signal input bit. -/
def IN_N : Nat := 2

/-- IN_BRAKE: `_BV(PINB2)`, brake input bit. -/
def IN_BRAKE : Nat := 4

/-- IN_L: `_BV(PINB5)`, L-terminal (engine running, active low) input bit. -/
def IN_L : Nat := 32

/-- OUT_BRAKE: `_BV(PORTB3)`, brake / starter-cut relay output bit. -/
def OUT_BRAKE : Nat := 8

/-- OUT_N: `_BV(PORTB4)`, neutral signal output bit for the Eco-Stop unit. -/
def OUT_N : Nat := 16

/-- INPUT_PULL_UP: pull-ups on PB0..PB2, the value `init` writes to PORTB. -/
def INPUT_PULL_UP : Nat := 7

/-- compl8 m: the C expression `~m` truncated to the 8-bit PORTB register. -/
def compl8 (m : Nat) : Nat := 255 ^^^ m

/-- isDisabled: C `return (PINB & IN_DISABLE);` — idle-stop disabled when high. -/
def isDisabled (pinb : Nat) : Bool := (pinb &&& IN_DISABLE) != 0

/-- isNeutral: C `return (PINB & IN_N);` — neutral when high. -/
def isNeutral (pinb : Nat) : Bool := (pinb &&& IN_N) != 0

/-- isBrakeReleased: C `return (PINB & IN_BRAKE);` — brake released when high. -/
def isBrakeReleased (pinb : Nat) : Bool := (pinb &&& IN_BRAKE) != 0

/-- isStarted: C `return !(PINB & IN_L);` — engine running when the L terminal is low. -/
def isStarted (pinb : Nat) : Bool := !((pinb &&& IN_L) != 0)

/-- transferShiftPosition: the shift-position reporter.  Takes the PINB value
read inside the call and the current PORTB value; clears `OUT_N` (reports
neutral) when idle-stop is disabled or the gearshift is in neutral, otherwise
sets `OUT_N` (reports non-neutral). -/
def transferShiftPosition (pinb portb : Nat) : Nat :=
  if isDisabled pinb || isNeutral pinb then
    portb &&& compl8 OUT_N
  else
    portb ||| OUT_N

/-- reportsNeutral: whether PORTB currently reports "neutral" outward.  Per
`transferShiftPosition`, a cleared `OUT_N` bit means neutral is reported. -/
def reportsNeutral (portb : Nat) : Bool := !portb.testBit 4

/-- crankLoop models the `for` loop of `cranking`.  `s t` is the value
`isStarted()` returns when sampled at elapsed time `t`; `cranking_time` and
`start_time` are the C locals; `fuel` is the remaining iteration count (see
the file header): the loop guard `cranking_time < CRANKING_MAX_TIME` is kept
verbatim and from the initial call the guard is already false whenever fuel
reaches zero.  Returns the final `cranking_time` and whether the loop ended
via the early-success `break`. -/
def crankLoop (s : Nat → Bool) : Nat → Nat → Nat → Nat × Bool
  | 0, cranking_time, _ => (cranking_time, false)
  | fuel + 1, cranking_time, start_time =>
    if cranking_time < CRANKING_MAX_TIME then
      if START_CHECK_DELAY_TIME ≥ cranking_time + POLLING_INTERVAL
          ∨ s (cranking_time + POLLING_INTERVAL) = false then
        crankLoop s fuel (cranking_time + POLLING_INTERVAL) 0
      else if START_THRESHOLD_TIME ≤ cranking_time + POLLING_INTERVAL -
          (if start_time = 0 then cranking_time + POLLING_INTERVAL else start_time) then
        (cranking_time + POLLING_INTERVAL, true)
      else
        crankLoop s fuel (cranking_time + POLLING_INTERVAL)
          (if start_time = 0 then cranking_time + POLLING_INTERVAL else start_time)
    else (cranking_time, false)

/-- crankingTimer: the timing behaviour of `cranking` — the loop started from
`cranking_time = 0`, `start_time = 0`. -/
def crankingTimer (s : Nat → Bool) : Nat × Bool :=
  crankLoop s (CRANKING_MAX_TIME / POLLING_INTERVAL) 0 0

/-- crankEntryPort: the PORTB value written on entry to `cranking`:
`PORTB = (PORTB | OUT_BRAKE) & ~OUT_N` — relay on, neutral faked.  The loop
body performs no output writes, so PORTB holds this value for the whole
attempt. -/
def crankEntryPort (portb : Nat) : Nat := (portb ||| OUT_BRAKE) &&& compl8 OUT_N

/-- cranking: full model of the C function — the entry write, the polling
loop, and the exit write `PORTB &= ~OUT_BRAKE`.  Returns the PORTB value at
return together with the loop's exit time and success flag. -/
def cranking (s : Nat → Bool) (portb : Nat) : Nat × Nat × Bool :=
  (crankEntryPort portb &&& compl8 OUT_BRAKE, crankingTimer s)

/-- CState: the controller state that persists across ticks of the main loop:
the `isManualStarted` flag, the stored previous PINB snapshot `lastInput`,
and the PORTB output register. -/
structure CState where
  isManualStarted : Bool
  lastInput : Nat
  portb : Nat
  deriving DecidableEq

/-- TickInput: the inputs one iteration of the main `while(1)` loop can
consume.  The C source reads the PINB register separately at each call site,
so each read point is its own field: `pinStarted` for the `isStarted()` call
updating the flag, `pinSnapshot` for `input = PINB`, `pinBrake` for
`isBrakeReleased()`, `pinDisabled` for `isDisabled()`, `crankSample t` for the
`isStarted()` samples inside `cranking` at elapsed time `t`, `pinPost` for the
post-crank `isStarted()`, and `pinReport` for the reads inside the final
`transferShiftPosition()`. -/
structure TickInput where
  pinStarted : Nat
  pinSnapshot : Nat
  pinBrake : Nat
  pinDisabled : Nat
  crankSample : Nat → Bool
  pinPost : Nat
  pinReport : Nat

/-- tickCrank: one iteration of the main loop, following the C source line by
line; returns the next state together with whether `cranking()` was invoked
this tick. -/
def tickCrank (st : CState) (inp : TickInput) : CState × Bool :=
  let started := isStarted inp.pinStarted
  let isManualStarted := st.isManualStarted || started
  let input := inp.pinSnapshot
  let fire := isManualStarted && !started &&
      ((((st.lastInput ^^^ input) &&& IN_BRAKE) != 0) && isBrakeReleased inp.pinBrake
        || isDisabled inp.pinDisabled)
  let portb1 := if fire then (cranking inp.crankSample st.portb).1 else st.portb
  let isManualStarted1 :=
    if fire && !(isStarted inp.pinPost) then false else isManualStarted
  let portb2 := transferShiftPosition inp.pinReport portb1
  (⟨isManualStarted1, input, portb2⟩, fire)

/-- tick: one iteration of the main loop (state part of `tickCrank`). -/
def tick (st : CState) (inp : TickInput) : CState := (tickCrank st inp).1

/-- initState: the controller state on entering the `while(1)` loop:
`init()` has written `PORTB = INPUT_PULL_UP` and run `transferShiftPosition`
once (reading PINB value `pinInit`), `isManualStarted` is false, and
`lastInput` holds the PINB value `pinLast` read at `lastInput = PINB`. -/
def initState (pinInit pinLast : Nat) : CState :=
  ⟨false, pinLast, transferShiftPosition pinInit INPUT_PULL_UP⟩

/-- run: iterate the main loop over a list of tick inputs. -/
def run (st : CState) (inps : List TickInput) : CState := inps.foldl tick st

/-- anyCrank: whether `cranking()` is invoked on any tick of a run. -/
def anyCrank : CState → List TickInput → Bool
  | _, [] => false
  | st, inp :: rest => (tickCrank st inp).2 || anyCrank (tick st inp) rest

/-- stableTick: all PINB reads of the tick return the same port value `pinb` —
the "one atomic port snapshot" situation the spec describes. -/
def stableTick (inp : TickInput) (pinb : Nat) : Prop :=
  inp.pinStarted = pinb ∧ inp.pinSnapshot = pinb ∧ inp.pinBrake = pinb ∧
    inp.pinDisabled = pinb ∧ inp.pinPost = pinb ∧ inp.pinReport = pinb

/-- tickAtomic: modelled from the spec's words ("all four read from one port
snapshot"): one loop iteration where every port read of the tick is served
from the single snapshot `pinb`. -/
def tickAtomic (st : CState) (pinb : Nat) (crankSample : Nat → Bool) : CState :=
  tick st ⟨pinb, pinb, pinb, pinb, crankSample, pinb, pinb⟩

/-- One unfolding of `crankLoop` at positive fuel. -/
lemma crankLoop_succ (s : Nat → Bool) (fuel cranking_time start_time : Nat) :
    crankLoop s (fuel + 1) cranking_time start_time =
      if cranking_time < CRANKING_MAX_TIME then
        if START_CHECK_DELAY_TIME ≥ cranking_time + POLLING_INTERVAL
            ∨ s (cranking_time + POLLING_INTERVAL) = false then
          crankLoop s fuel (cranking_time + POLLING_INTERVAL) 0
        else if START_THRESHOLD_TIME ≤ cranking_time + POLLING_INTERVAL -
            (if start_time = 0 then cranking_time + POLLING_INTERVAL else start_time) then
          (cranking_time + POLLING_INTERVAL, true)
        else
          crankLoop s fuel (cranking_time + POLLING_INTERVAL)
            (if start_time = 0 then cranking_time + POLLING_INTERVAL else start_time)
      else (cranking_time, false) := rfl

/-- Iteration that takes the reset branch (within the delay, or engine not
sampled running): `start_time` is cleared and the loop continues. -/
lemma crankLoop_reset_step (s : Nat → Bool) (fuel cranking_time start_time : Nat)
    (h1 : cranking_time < CRANKING_MAX_TIME)
    (h2 : START_CHECK_DELAY_TIME ≥ cranking_time + POLLING_INTERVAL
      ∨ s (cranking_time + POLLING_INTERVAL) = false) :
    crankLoop s (fuel + 1) cranking_time start_time =
      crankLoop s fuel (cranking_time + POLLING_INTERVAL) 0 := by
  rw [crankLoop_succ, if_pos h1, if_pos h2]

/-- Iteration past the delay with the engine sampled running, below the
threshold: `start_time` is recorded (kept) and the loop continues. -/
lemma crankLoop_cont_step (s : Nat → Bool) (fuel cranking_time start_time : Nat)
    (h1 : cranking_time < CRANKING_MAX_TIME)
    (h2 : ¬(START_CHECK_DELAY_TIME ≥ cranking_time + POLLING_INTERVAL
      ∨ s (cranking_time + POLLING_INTERVAL) = false))
    (h3 : ¬ START_THRESHOLD_TIME ≤ cranking_time + POLLING_INTERVAL -
      (if start_time = 0 then cranking_time + POLLING_INTERVAL else start_time)) :
    crankLoop s (fuel + 1) cranking_time start_time =
      crankLoop s fuel (cranking_time + POLLING_INTERVAL)
        (if start_time = 0 then cranking_time + POLLING_INTERVAL else start_time) := by
  rw [crankLoop_succ, if_pos h1, if_neg h2, if_neg h3]

/-- Iteration reaching the threshold: the loop ends via the success break. -/
lemma crankLoop_break_step (s : Nat → Bool) (fuel cranking_time start_time : Nat)
    (h1 : cranking_time < CRANKING_MAX_TIME)
    (h2 : ¬(START_CHECK_DELAY_TIME ≥ cranking_time + POLLING_INTERVAL
      ∨ s (cranking_time + POLLING_INTERVAL) = false))
    (h3 : START_THRESHOLD_TIME ≤ cranking_time + POLLING_INTERVAL -
      (if start_time = 0 then cranking_time + POLLING_INTERVAL else start_time)) :
    crankLoop s (fuel + 1) cranking_time start_time =
      (cranking_time + POLLING_INTERVAL, true) := by
  rw [crankLoop_succ, if_pos h1, if_neg h2, if_pos h3]

/-- Invariant of the cranking loop, by induction on the remaining fuel.  At
every reachable call `cranking_time + 100 * fuel = 4000` and `start_time` is
either unset or a value recorded strictly after the start-check delay (hence
at least `600`).  The result time never exceeds `CRANKING_MAX_TIME`, a
non-break exit happens exactly at `CRANKING_MAX_TIME`, and a break exit
happens no earlier than
`START_CHECK_DELAY_TIME + POLLING_INTERVAL + START_THRESHOLD_TIME`. -/
lemma crankLoop_inv (s : Nat → Bool) :
    ∀ fuel cranking_time start_time,
      cranking_time + POLLING_INTERVAL * fuel = CRANKING_MAX_TIME →
      (start_time = 0 ∨ START_CHECK_DELAY_TIME + POLLING_INTERVAL ≤ start_time) →
      (crankLoop s fuel cranking_time start_time).1 ≤ CRANKING_MAX_TIME ∧
      ((crankLoop s fuel cranking_time start_time).2 = false →
        (crankLoop s fuel cranking_time start_time).1 = CRANKING_MAX_TIME) ∧
      ((crankLoop s fuel cranking_time start_time).2 = true →
        START_CHECK_DELAY_TIME + POLLING_INTERVAL + START_THRESHOLD_TIME ≤
          (crankLoop s fuel cranking_time start_time).1) := by
  intro fuel
  induction fuel with
  | zero =>
    intro ct st hct _
    simp only [POLLING_INTERVAL, CRANKING_MAX_TIME, START_CHECK_DELAY_TIME,
      START_THRESHOLD_TIME] at hct ⊢
    simp only [crankLoop]
    omega
  | succ n ih =>
    intro ct st hct hst
    have hct4 : ct < CRANKING_MAX_TIME := by
      simp only [POLLING_INTERVAL, CRANKING_MAX_TIME] at hct ⊢
      omega
    by_cases h2 : START_CHECK_DELAY_TIME ≥ ct + POLLING_INTERVAL
        ∨ s (ct + POLLING_INTERVAL) = false
    · rw [crankLoop_reset_step s n ct st hct4 h2]
      exact ih (ct + POLLING_INTERVAL) 0
        (by simp only [POLLING_INTERVAL, CRANKING_MAX_TIME] at hct ⊢; omega) (Or.inl rfl)
    · have hdelay : START_CHECK_DELAY_TIME < ct + POLLING_INTERVAL := by
        rcases Nat.lt_or_ge START_CHECK_DELAY_TIME (ct + POLLING_INTERVAL) with h | h
        · exact h
        · exact absurd (Or.inl h) h2
      have hst6 : START_CHECK_DELAY_TIME + POLLING_INTERVAL ≤
          (if st = 0 then ct + POLLING_INTERVAL else st) := by
        rcases hst with h0 | h6
        · rw [if_pos h0]
          simp only [POLLING_INTERVAL, START_CHECK_DELAY_TIME, CRANKING_MAX_TIME] at hct hdelay ⊢
          omega
        · have : st ≠ 0 := by
            simp only [POLLING_INTERVAL, START_CHECK_DELAY_TIME] at h6
            omega
          rw [if_neg this]
          exact h6
      by_cases h3 : START_THRESHOLD_TIME ≤ ct + POLLING_INTERVAL -
          (if st = 0 then ct + POLLING_INTERVAL else st)
      · rw [crankLoop_break_step s n ct st hct4 h2 h3]
        refine ⟨?_, ?_, ?_⟩
        · simp only [POLLING_INTERVAL, CRANKING_MAX_TIME] at hct ⊢
          omega
        · intro hfalse
          exact absurd hfalse (by simp)
        · intro _
          simp only [POLLING_INTERVAL, START_CHECK_DELAY_TIME, START_THRESHOLD_TIME] at hst6 h3 ⊢
          omega
      · rw [crankLoop_cont_step s n ct st hct4 h2 h3]
        exact ih (ct + POLLING_INTERVAL) _
          (by simp only [POLLING_INTERVAL, CRANKING_MAX_TIME] at hct ⊢; omega)
          (Or.inr hst6)

/-- With the engine never sampled running the loop always runs to the timeout
exit at `CRANKING_MAX_TIME`. -/
lemma crankLoop_never_started (s : Nat → Bool) (hs : ∀ t, s t = false) :
    ∀ fuel cranking_time start_time,
      cranking_time + POLLING_INTERVAL * fuel = CRANKING_MAX_TIME →
      crankLoop s fuel cranking_time start_time = (CRANKING_MAX_TIME, false) := by
  intro fuel
  induction fuel with
  | zero =>
    intro ct st hct
    simp only [POLLING_INTERVAL, CRANKING_MAX_TIME] at hct
    have : ct = 4000 := by omega
    subst this
    simp only [crankLoop, CRANKING_MAX_TIME]
  | succ n ih =>
    intro ct st hct
    have hct4 : ct < CRANKING_MAX_TIME := by
      simp only [POLLING_INTERVAL, CRANKING_MAX_TIME] at hct ⊢
      omega
    rw [crankLoop_reset_step s n ct st hct4 (Or.inr (hs _))]
    exact ih (ct + POLLING_INTERVAL) 0
      (by simp only [POLLING_INTERVAL, CRANKING_MAX_TIME] at hct ⊢; omega)

/-- The shift-position reporter never touches the relay bit (PORTB3). -/
lemma transfer_testBit3 (pinb p : Nat) :
    (transferShiftPosition pinb p).testBit 3 = p.testBit 3 := by
  unfold transferShiftPosition
  split
  · rw [Nat.testBit_land]
    rw [(by decide : (compl8 OUT_N).testBit 3 = true)]
    exact Bool.and_true _
  · rw [Nat.testBit_lor]
    rw [(by decide : (OUT_N).testBit 3 = false)]
    exact Bool.or_false _

/-- The reporter leaves PORTB reporting neutral exactly when idle-stop is
disabled or the gearshift is in neutral at the read it performs. -/
lemma reportsNeutral_transfer (pinb p : Nat) :
    reportsNeutral (transferShiftPosition pinb p) = (isDisabled pinb || isNeutral pinb) := by
  unfold transferShiftPosition reportsNeutral
  split
  case isTrue h =>
    rw [Nat.testBit_land]
    rw [(by decide : (compl8 OUT_N).testBit 4 = false)]
    simp [h]
  case isFalse h =>
    rw [Nat.testBit_lor]
    rw [(by decide : (OUT_N).testBit 4 = true)]
    simp only [Bool.or_true, Bool.not_true]
    cases hb : (isDisabled pinb || isNeutral pinb) with
    | false => rfl
    | true => exact absurd hb h

/-- On entry `cranking` asserts the relay bit. -/
lemma crankEntryPort_relay (p : Nat) : (crankEntryPort p).testBit 3 = true := by
  unfold crankEntryPort
  rw [Nat.testBit_land, Nat.testBit_lor]
  rw [(by decide : (OUT_BRAKE).testBit 3 = true),
    (by decide : (compl8 OUT_N).testBit 3 = true)]
  simp

/-- On entry `cranking` clears the outward-neutral bit, i.e. fakes neutral. -/
lemma crankEntryPort_neutral (p : Nat) : (crankEntryPort p).testBit 4 = false := by
  unfold crankEntryPort
  rw [Nat.testBit_land]
  rw [(by decide : (compl8 OUT_N).testBit 4 = false)]
  simp

/-- On return `cranking` has deasserted the relay bit, on every exit path. -/
lemma cranking_relay_off (s : Nat → Bool) (p : Nat) :
    ((cranking s p).1).testBit 3 = false := by
  unfold cranking
  rw [Nat.testBit_land]
  rw [(by decide : (compl8 OUT_BRAKE).testBit 3 = false)]
  simp

/-- The exit write of `cranking` clears only the relay bit: the faked-neutral
bit keeps the value the entry write gave it. -/
lemma cranking_testBit4 (s : Nat → Bool) (p : Nat) :
    ((cranking s p).1).testBit 4 = (crankEntryPort p).testBit 4 := by
  unfold cranking
  rw [Nat.testBit_land]
  rw [(by decide : (compl8 OUT_BRAKE).testBit 4 = true)]
  exact Bool.and_true _

/-- One loop iteration preserves a deasserted relay bit: within the tick the
relay is only touched by `cranking`, which releases it before returning. -/
lemma tick_relay_off (st : CState) (inp : TickInput)
    (h : st.portb.testBit 3 = false) : (tick st inp).portb.testBit 3 = false := by
  unfold tick tickCrank
  simp only [transfer_testBit3]
  split
  · exact cranking_relay_off _ _
  · exact h

/-- The relay bit is deasserted in the state `init` hands to the main loop. -/
lemma initState_relay_off (pinInit pinLast : Nat) :
    (initState pinInit pinLast).portb.testBit 3 = false := by
  unfold initState
  rw [transfer_testBit3]
  decide

/-- The relay bit is deasserted at every tick boundary of every run. -/
lemma run_relay_off (inps : List TickInput) :
    ∀ st : CState, st.portb.testBit 3 = false → (run st inps).portb.testBit 3 = false := by
  induction inps with
  | nil => intro st h; exact h
  | cons inp rest ih =>
    intro st h
    exact ih (tick st inp) (tick_relay_off st inp h)

/-- The C truthiness test for the brake bit is the brake `testBit`. -/
lemma land_brake_bit (x : Nat) : ((x &&& IN_BRAKE) != 0) = x.testBit 2 := by
  have h : x &&& IN_BRAKE = (x.testBit 2).toNat * 4 := by
    have h2 := Nat.and_two_pow x 2
    norm_num at h2
    simpa [IN_BRAKE] using h2
  cases hb : x.testBit 2 <;> simp [h, hb]

/-- `isBrakeReleased` reads exactly the brake test bit. -/
lemma isBrakeReleased_testBit (x : Nat) : isBrakeReleased x = x.testBit 2 := by
  unfold isBrakeReleased
  exact land_brake_bit x

/-- The source's brake-edge test `(lastInput ^ input) & IN_BRAKE` combined
with a released brake is the depressed-to-released transition. -/
lemma brake_edge_eq (lastInput input : Nat) :
    ((((lastInput ^^^ input) &&& IN_BRAKE) != 0) && isBrakeReleased input) =
      (!isBrakeReleased lastInput && isBrakeReleased input) := by
  rw [land_brake_bit, Nat.testBit_xor, isBrakeReleased_testBit, isBrakeReleased_testBit]
  cases lastInput.testBit 2 <;> cases input.testBit 2 <;> rfl

/-- A tick with the flag down and the engine not observed running fires no
crank and leaves the flag down. -/
lemma disarmed_tick (st : CState) (inp : TickInput)
    (hm : st.isManualStarted = false) (hs : isStarted inp.pinStarted = false) :
    (tickCrank st inp).2 = false ∧ (tick st inp).isManualStarted = false := by
  unfold tick tickCrank
  simp [hm, hs]

/-- While the flag stays down and the engine is never observed running, no
crank fires anywhere in the run and the flag stays down. -/
lemma disarmed_run (inps : List TickInput) :
    ∀ st : CState, st.isManualStarted = false →
      (∀ j ∈ inps, isStarted j.pinStarted = false) →
      anyCrank st inps = false ∧ (run st inps).isManualStarted = false := by
  induction inps with
  | nil => intro st hm _; exact ⟨rfl, hm⟩
  | cons inp rest ih =>
    intro st hm hs
    have h1 := disarmed_tick st inp hm (hs inp (List.mem_cons_self inp rest))
    have h2 := ih (tick st inp) h1.2 (fun j hj => hs j (List.mem_cons_of_mem inp hj))
    refine ⟨?_, h2.2⟩
    unfold anyCrank
    rw [h1.1, h2.1]
    rfl

/-- A crank whose post-crank re-sample still shows the engine stopped resets
the flag. -/
lemma failed_crank_tick (st : CState) (inp : TickInput)
    (hfire : (tickCrank st inp).2 = true) (hpost : isStarted inp.pinPost = false) :
    (tick st inp).isManualStarted = false := by
  unfold tick tickCrank
  unfold tickCrank at hfire
  simp only at hfire
  simp [hfire, hpost]

/-- C1: the relay output (OUT_BRAKE, PORTB3) is deasserted in the state
`init` hands to the loop, at every reachable tick boundary of every run
(hence immediately before any `cranking` call — the tick performs no output
write before that call), and `cranking` returns with the relay deasserted on
every exit path (success break or timeout); any tick started with the relay
deasserted ends with it deasserted. -/
theorem relay_released :
    (∀ pinInit pinLast : Nat, (initState pinInit pinLast).portb.testBit 3 = false) ∧
    (∀ (pinInit pinLast : Nat) (inps : List TickInput),
      (run (initState pinInit pinLast) inps).portb.testBit 3 = false) ∧
    (∀ (s : Nat → Bool) (p : Nat), ((cranking s p).1).testBit 3 = false) ∧
    (∀ (st : CState) (inp : TickInput), st.portb.testBit 3 = false →
      (tick st inp).portb.testBit 3 = false) :=
  ⟨initState_relay_off,
   fun pinInit pinLast inps => run_relay_off inps _ (initState_relay_off pinInit pinLast),
   cranking_relay_off,
   tick_relay_off⟩

/-- C1 witness: a concrete tick (which does invoke `cranking`) keeps the
relay deasserted. -/
theorem relay_released_witness :
    (tick ⟨false, 0, 7⟩ ⟨36, 36, 36, 36, fun _ => false, 36, 36⟩).portb.testBit 3 = false :=
  relay_released.2.2.2 ⟨false, 0, 7⟩ ⟨36, 36, 36, 36, fun _ => false, 36, 36⟩ (by decide)

/-- C2: after any tick — whatever the prior state, in particular whether or
not `cranking` ran — the outward signal reports neutral exactly when
idle-stop is disabled or the gearshift is in neutral at the reporter's read
of that tick. -/
theorem reporter_rule (st : CState) (inp : TickInput) :
    reportsNeutral ((tick st inp).portb) =
      (isDisabled inp.pinReport || isNeutral inp.pinReport) := by
  simp only [tick, tickCrank]
  exact reportsNeutral_transfer _ _

/-- C3: when all PINB reads of the tick see the same port value `pinb`,
`cranking` is invoked exactly when the (sticky-updated) flag is set, the
engine is currently not running, and either the brake transitioned from
depressed to released since the stored previous sample and is currently
released, or the disable override is on. -/
theorem restart_trigger_iff (st : CState) (inp : TickInput) (pinb : Nat)
    (h1 : inp.pinStarted = pinb) (h2 : inp.pinSnapshot = pinb)
    (h3 : inp.pinBrake = pinb) (h4 : inp.pinDisabled = pinb) :
    (tickCrank st inp).2 =
      ((st.isManualStarted || isStarted pinb) && !isStarted pinb &&
        ((!isBrakeReleased st.lastInput && isBrakeReleased pinb) || isDisabled pinb)) := by
  simp only [tickCrank, h1, h2, h3, h4]
  rw [brake_edge_eq]

/-- C3 witness: a depressed-to-released brake edge with the engine stopped
and the flag set triggers cranking. -/
theorem restart_trigger_iff_witness :
    (tickCrank ⟨true, 0, 7⟩ ⟨36, 36, 36, 36, fun _ => false, 36, 36⟩).2 =
      ((true || isStarted 36) && !isStarted 36 &&
        ((!isBrakeReleased 0 && isBrakeReleased 36) || isDisabled 36)) :=
  restart_trigger_iff ⟨true, 0, 7⟩ ⟨36, 36, 36, 36, fun _ => false, 36, 36⟩ 36
    rfl rfl rfl rfl

/-- C4: a crank attempt whose post-crank re-sample still shows the engine
stopped resets the flag; afterwards, as long as the engine is never observed
running at the flag-update sample, no tick invokes `cranking` (whatever the
brake or override inputs do) and the flag stays down; any tick observing the
engine running sets the flag back. -/
theorem failed_crank_disarms (st : CState) (inp : TickInput)
    (hfire : (tickCrank st inp).2 = true) (hpost : isStarted inp.pinPost = false) :
    (tick st inp).isManualStarted = false ∧
    (∀ inps : List TickInput, (∀ j ∈ inps, isStarted j.pinStarted = false) →
      anyCrank (tick st inp) inps = false) ∧
    (∀ (st2 : CState) (inp2 : TickInput), isStarted inp2.pinStarted = true →
      (tick st2 inp2).isManualStarted = true) := by
  refine ⟨failed_crank_tick st inp hfire hpost, ?_, ?_⟩
  · intro inps hs
    exact (disarmed_run inps (tick st inp) (failed_crank_tick st inp hfire hpost) hs).1
  · intro st2 inp2 hs2
    unfold tick tickCrank
    simp [hs2]

/-- C4 witness: a concrete failed crank (brake-edge trigger, engine never
starts) resets the flag, and a subsequent brake-release tick fires nothing. -/
theorem failed_crank_disarms_witness :
    (tick ⟨true, 0, 7⟩ ⟨36, 36, 36, 36, fun _ => false, 36, 36⟩).isManualStarted = false ∧
    anyCrank (tick ⟨true, 0, 7⟩ ⟨36, 36, 36, 36, fun _ => false, 36, 36⟩)
      [⟨32, 36, 36, 36, fun _ => false, 36, 36⟩] = false := by
  have h := failed_crank_disarms ⟨true, 0, 7⟩ ⟨36, 36, 36, 36, fun _ => false, 36, 36⟩
    (by decide) (by decide)
  refine ⟨h.1, h.2.1 [⟨32, 36, 36, 36, fun _ => false, 36, 36⟩] ?_⟩
  intro j hj
  rw [List.mem_singleton] at hj
  subst hj
  decide

/-- C5 counterexample: a trace with the engine-running signal sampled true at
every poll from t = 500 through t = 1000 (the claim's stated window,
startCheckDelay through startCheckDelay + startConfirmThreshold) and false
afterwards does not exit by success at 1000 ± one polling interval: at the
t = 1100 poll the signal is false again, the running-since timestamp is
cleared, and the loop runs to the timeout exit at t = 4000. -/
theorem success_timing_ctrex :
    ((fun t => decide (500 ≤ t ∧ t ≤ 1000)) 500 = true) ∧
    ((fun t => decide (500 ≤ t ∧ t ≤ 1000)) 600 = true) ∧
    ((fun t => decide (500 ≤ t ∧ t ≤ 1000)) 700 = true) ∧
    ((fun t => decide (500 ≤ t ∧ t ≤ 1000)) 800 = true) ∧
    ((fun t => decide (500 ≤ t ∧ t ≤ 1000)) 900 = true) ∧
    ((fun t => decide (500 ≤ t ∧ t ≤ 1000)) 1000 = true) ∧
    crankingTimer (fun t => decide (500 ≤ t ∧ t ≤ 1000)) = (4000, false) := by
  decide

/-- C5 amended: if the engine-running signal is sampled true at every poll
from startCheckDelay through startCheckDelay + startConfirmThreshold + one
polling interval, the Sequencer exits via success exactly at
startCheckDelay + startConfirmThreshold + POLLING_INTERVAL (within one
polling interval of startCheckDelay + startConfirmThreshold), and no input
trace whatsoever produces a success exit earlier than that. -/
theorem success_timing (s : Nat → Bool)
    (h : ∀ t, START_CHECK_DELAY_TIME ≤ t →
      t ≤ START_CHECK_DELAY_TIME + START_THRESHOLD_TIME + POLLING_INTERVAL → s t = true) :
    crankingTimer s =
      (START_CHECK_DELAY_TIME + START_THRESHOLD_TIME + POLLING_INTERVAL, true) ∧
    ∀ s2 : Nat → Bool, (crankingTimer s2).2 = true →
      START_CHECK_DELAY_TIME + POLLING_INTERVAL + START_THRESHOLD_TIME ≤
        (crankingTimer s2).1 := by
  constructor
  · have h600 : s 600 = true := h 600 (by decide) (by decide)
    have h700 : s 700 = true := h 700 (by decide) (by decide)
    have h800 : s 800 = true := h 800 (by decide) (by decide)
    have h900 : s 900 = true := h 900 (by decide) (by decide)
    have h1000 : s 1000 = true := h 1000 (by decide) (by decide)
    have h1100 : s 1100 = true := h 1100 (by decide) (by decide)
    have e1 : crankLoop s 40 0 0 = crankLoop s 39 100 0 := by
      have e := crankLoop_reset_step s 39 0 0 (by decide) (Or.inl (by decide))
      norm_num [POLLING_INTERVAL] at e
      exact e
    have e2 : crankLoop s 39 100 0 = crankLoop s 38 200 0 := by
      have e := crankLoop_reset_step s 38 100 0 (by decide) (Or.inl (by decide))
      norm_num [POLLING_INTERVAL] at e
      exact e
    have e3 : crankLoop s 38 200 0 = crankLoop s 37 300 0 := by
      have e := crankLoop_reset_step s 37 200 0 (by decide) (Or.inl (by decide))
      norm_num [POLLING_INTERVAL] at e
      exact e
    have e4 : crankLoop s 37 300 0 = crankLoop s 36 400 0 := by
      have e := crankLoop_reset_step s 36 300 0 (by decide) (Or.inl (by decide))
      norm_num [POLLING_INTERVAL] at e
      exact e
    have e5 : crankLoop s 36 400 0 = crankLoop s 35 500 0 := by
      have e := crankLoop_reset_step s 35 400 0 (by decide) (Or.inl (by decide))
      norm_num [POLLING_INTERVAL] at e
      exact e
    have e6 : crankLoop s 35 500 0 = crankLoop s 34 600 600 := by
      have e := crankLoop_cont_step s 34 500 0 (by decide)
        (by norm_num [POLLING_INTERVAL, START_CHECK_DELAY_TIME, h600])
        (by norm_num [POLLING_INTERVAL, START_THRESHOLD_TIME])
      norm_num [POLLING_INTERVAL] at e
      exact e
    have e7 : crankLoop s 34 600 600 = crankLoop s 33 700 600 := by
      have e := crankLoop_cont_step s 33 600 600 (by decide)
        (by norm_num [POLLING_INTERVAL, START_CHECK_DELAY_TIME, h700])
        (by norm_num [POLLING_INTERVAL, START_THRESHOLD_TIME])
      norm_num [POLLING_INTERVAL] at e
      exact e
    have e8 : crankLoop s 33 700 600 = crankLoop s 32 800 600 := by
      have e := crankLoop_cont_step s 32 700 600 (by decide)
        (by norm_num [POLLING_INTERVAL, START_CHECK_DELAY_TIME, h800])
        (by norm_num [POLLING_INTERVAL, START_THRESHOLD_TIME])
      norm_num [POLLING_INTERVAL] at e
      exact e
    have e9 : crankLoop s 32 800 600 = crankLoop s 31 900 600 := by
      have e := crankLoop_cont_step s 31 800 600 (by decide)
        (by norm_num [POLLING_INTERVAL, START_CHECK_DELAY_TIME, h900])
        (by norm_num [POLLING_INTERVAL, START_THRESHOLD_TIME])
      norm_num [POLLING_INTERVAL] at e
      exact e
    have e10 : crankLoop s 31 900 600 = crankLoop s 30 1000 600 := by
      have e := crankLoop_cont_step s 30 900 600 (by decide)
        (by norm_num [POLLING_INTERVAL, START_CHECK_DELAY_TIME, h1000])
        (by norm_num [POLLING_INTERVAL, START_THRESHOLD_TIME])
      norm_num [POLLING_INTERVAL] at e
      exact e
    have e11 : crankLoop s 30 1000 600 = (1100, true) := by
      have e := crankLoop_break_step s 29 1000 600 (by decide)
        (by norm_num [POLLING_INTERVAL, START_CHECK_DELAY_TIME, h1100])
        (by norm_num [POLLING_INTERVAL, START_THRESHOLD_TIME])
      norm_num [POLLING_INTERVAL] at e
      exact e
    show crankLoop s 40 0 0 = (1100, true)
    rw [e1, e2, e3, e4, e5, e6, e7, e8, e9, e10, e11]
  · intro s2 hs2
    have h2 := crankLoop_inv s2 (CRANKING_MAX_TIME / POLLING_INTERVAL) 0 0
      (by decide) (Or.inl rfl)
    exact h2.2.2 hs2

/-- C5 witness: the engine held running from t = 500 through t = 1100 makes
the loop exit via success at exactly 1100. -/
theorem success_timing_witness :
    crankingTimer (fun t => decide (500 ≤ t ∧ t ≤ 1100)) =
      (START_CHECK_DELAY_TIME + START_THRESHOLD_TIME + POLLING_INTERVAL, true) :=
  (success_timing (fun t => decide (500 ≤ t ∧ t ≤ 1100))
    (fun _ h1 h2 => decide_eq_true ⟨h1, h2⟩)).1

/-- C6: the cranking loop's elapsed time is bounded by CRANKING_MAX_TIME for
every input behaviour (the loop is total by construction, so `cranking`
always returns), and with the engine never sampled running it exits exactly
at CRANKING_MAX_TIME — never sooner — having performed
CRANKING_MAX_TIME / POLLING_INTERVAL iterations of POLLING_INTERVAL each. -/
theorem cranking_terminates (s : Nat → Bool) :
    (crankingTimer s).1 ≤ CRANKING_MAX_TIME ∧
    ((∀ t, s t = false) →
      crankingTimer s = (CRANKING_MAX_TIME, false) ∧
      (crankingTimer s).1 / POLLING_INTERVAL = CRANKING_MAX_TIME / POLLING_INTERVAL) := by
  constructor
  · exact (crankLoop_inv s (CRANKING_MAX_TIME / POLLING_INTERVAL) 0 0
      (by decide) (Or.inl rfl)).1
  · intro hs
    have h := crankLoop_never_started s hs (CRANKING_MAX_TIME / POLLING_INTERVAL) 0 0
      (by decide)
    unfold crankingTimer
    rw [h]
    exact ⟨rfl, rfl⟩

/-- C6 witness: with the engine never running the loop times out at 4000. -/
theorem cranking_terminates_witness :
    crankingTimer (fun _ => false) = (CRANKING_MAX_TIME, false) :=
  ((cranking_terminates (fun _ => false)).2 (fun _ => rfl)).1

/-- C7 counterexample: the entry write of `cranking` clears OUT_N, which by
the reporter's convention (first two conjuncts: physical neutral makes the
output report neutral, non-neutral makes it report non-neutral) means the
outward shift signal is forced to NEUTRAL — not to non-neutral as the claim
states. -/
theorem crank_neutral_ctrex :
    reportsNeutral (transferShiftPosition 2 7) = true ∧
    reportsNeutral (transferShiftPosition 32 7) = false ∧
    reportsNeutral (crankEntryPort 7) = true := by decide

/-- C7 amended: upon entry the Cranking Sequencer asserts the relay and
forces the outward shift-position signal to neutral (clears OUT_N), and the
shift position remains faked as neutral for the whole attempt: the polling
loop performs no output write, and even the exit write clears only the relay
bit, leaving the faked-neutral signal in place. -/
theorem crank_fakes_neutral (portb : Nat) :
    (crankEntryPort portb).testBit 3 = true ∧
    reportsNeutral (crankEntryPort portb) = true ∧
    (∀ s : Nat → Bool, reportsNeutral ((cranking s portb).1) = true) := by
  refine ⟨crankEntryPort_relay portb, ?_, ?_⟩
  · unfold reportsNeutral
    rw [crankEntryPort_neutral]
    rfl
  · intro s
    unfold reportsNeutral
    rw [cranking_testBit4, crankEntryPort_neutral]
    rfl

/-- C8 counterexample: with the override asserted throughout (PINB = 33:
disable bit set, L terminal high so the engine never runs) and the flag
initially set, cranking fires on the first tick but NOT on the second —
the failed attempt resets `isManualStarted`, so the claim's "fires every
tick until the engine starts or the override is cleared" is false. -/
theorem override_retrigger_ctrex :
    isDisabled 33 = true ∧ isStarted 33 = false ∧
    (tickCrank ⟨true, 33, 7⟩ ⟨33, 33, 33, 33, fun _ => false, 33, 33⟩).2 = true ∧
    (tickCrank (tick ⟨true, 33, 7⟩ ⟨33, 33, 33, 33, fun _ => false, 33, 33⟩)
      ⟨33, 33, 33, 33, fun _ => false, 33, 33⟩).2 = false := by decide

/-- C8 amended: on any tick where the flag is set, the engine is not
observed running and the override is on, a crank attempt fires — there is no
inter-attempt cooldown — and it keeps re-firing on subsequent such ticks
only as long as the flag stays set, i.e. as long as each attempt ends with
the engine observed running at the post-crank re-sample; an attempt ending
with the engine stopped resets the flag and stops the re-triggering. -/
theorem override_retrigger (st : CState) (inp : TickInput)
    (hm : st.isManualStarted = true) (hns : isStarted inp.pinStarted = false)
    (hd : isDisabled inp.pinDisabled = true) :
    (tickCrank st inp).2 = true ∧
    (isStarted inp.pinPost = true → (tick st inp).isManualStarted = true) := by
  constructor
  · unfold tickCrank
    simp [hm, hns, hd]
  · intro hp
    unfold tick tickCrank
    simp [hm, hns, hd, hp]

/-- C8 witness: override on, flag set, engine stopped — the tick cranks, and
when the post-crank re-sample sees the engine running the flag survives. -/
theorem override_retrigger_witness :
    (tickCrank ⟨true, 33, 7⟩ ⟨33, 33, 33, 33, fun _ => false, 1, 33⟩).2 = true ∧
    (isStarted 1 = true →
      (tick ⟨true, 33, 7⟩ ⟨33, 33, 33, 33, fun _ => false, 1, 33⟩).isManualStarted = true) :=
  override_retrigger ⟨true, 33, 7⟩ ⟨33, 33, 33, 33, fun _ => false, 1, 33⟩
    rfl (by decide) (by decide)

/-- C9 counterexample: two ticks from the same state whose `input = PINB`
snapshot agrees (both 36), but whose other in-tick PINB reads differ (the
fresh `isBrakeReleased` and `isDisabled` reads see 32), end in different
controller states: the first run triggers a failed crank and drops the flag,
the second does not crank — so agreement at the tick's single stored sample
point does not determine the tick's outcome. -/
theorem atomic_read_ctrex :
    (⟨36, 36, 36, 36, fun _ => false, 36, 36⟩ : TickInput).pinSnapshot =
      (⟨36, 36, 32, 32, fun _ => false, 36, 36⟩ : TickInput).pinSnapshot ∧
    tick ⟨true, 0, 7⟩ ⟨36, 36, 36, 36, fun _ => false, 36, 36⟩ ≠
      tick ⟨true, 0, 7⟩ ⟨36, 36, 32, 32, fun _ => false, 36, 36⟩ := by decide

/-- C9 amended: only the brake edge detection uses the stored snapshot; the
logical booleans are otherwise taken from separate PINB reads inside the
tick.  When the port value is stable across all reads of a tick, the tick
behaves as the atomic one-snapshot tick of the spec, and any two such ticks
agreeing on that value and on the in-crank engine samples coincide. -/
theorem atomic_stable_refines (st : CState) (inpA inpB : TickInput) (pinb : Nat)
    (hA : stableTick inpA pinb) (hB : stableTick inpB pinb)
    (hcs : inpA.crankSample = inpB.crankSample) :
    tick st inpA = tickAtomic st pinb inpA.crankSample ∧
    tick st inpA = tick st inpB := by
  obtain ⟨a1, a2, a3, a4, a5, a6⟩ := hA
  obtain ⟨b1, b2, b3, b4, b5, b6⟩ := hB
  obtain ⟨pA1, pA2, pA3, pA4, csA, pA5, pA6⟩ := inpA
  obtain ⟨pB1, pB2, pB3, pB4, csB, pB5, pB6⟩ := inpB
  simp only [] at a1 a2 a3 a4 a5 a6 b1 b2 b3 b4 b5 b6 hcs
  rw [a1, a2, a3, a4, a5, a6, b1, b2, b3, b4, b5, b6, ← hcs]
  exact ⟨rfl, rfl⟩

/-- C9 witness: a stable tick at port value 36 equals the atomic tick. -/
theorem atomic_stable_refines_witness :
    tick ⟨false, 0, 7⟩ ⟨36, 36, 36, 36, fun _ => false, 36, 36⟩ =
      tickAtomic ⟨false, 0, 7⟩ 36 (fun _ => false) :=
  (atomic_stable_refines ⟨false, 0, 7⟩ ⟨36, 36, 36, 36, fun _ => false, 36, 36⟩
    ⟨36, 36, 36, 36, fun _ => false, 36, 36⟩ 36
    ⟨rfl, rfl, rfl, rfl, rfl, rfl⟩ ⟨rfl, rfl, rfl, rfl, rfl, rfl⟩ rfl).1

/-- C10: a success exit of the cranking loop never happens before elapsed
time START_CHECK_DELAY_TIME + POLLING_INTERVAL + START_THRESHOLD_TIME (the
earliest running-since timestamp is the first poll strictly after the
start-check delay), so the relay is held at least that long on every
successful attempt; a timeout exit happens at exactly CRANKING_MAX_TIME. -/
theorem crank_min_hold (s : Nat → Bool) :
    ((crankingTimer s).2 = true →
      START_CHECK_DELAY_TIME + POLLING_INTERVAL + START_THRESHOLD_TIME ≤
        (crankingTimer s).1) ∧
    ((crankingTimer s).2 = false → (crankingTimer s).1 = CRANKING_MAX_TIME) := by
  have h := crankLoop_inv s (CRANKING_MAX_TIME / POLLING_INTERVAL) 0 0
    (by decide) (Or.inl rfl)
  exact ⟨h.2.2, h.2.1⟩

/-- C10 witness: a successful attempt (engine running from t = 500 on) holds
the relay for at least 1100 ms. -/
theorem crank_min_hold_witness :
    START_CHECK_DELAY_TIME + POLLING_INTERVAL + START_THRESHOLD_TIME ≤
      (crankingTimer (fun t => decide (500 ≤ t))).1 :=
  (crank_min_hold (fun t => decide (500 ≤ t))).1 (by decide)
example :
    (tickCrank ⟨true, 0, 7⟩ ⟨36, 36, 36, 36, fun _ => false, 36, 36⟩).2 = true := by decide
example :
    (tick ⟨true, 0, 7⟩ ⟨36, 36, 36, 36, fun _ => false, 36, 36⟩).isManualStarted = false := by
  decide
